import Mathlib

/-!
Shallow embedding of the cerk event-router core, following the sources under
src/ (port_amqp.rs, port_input_unix_socket_json.rs, router lib.rs). The
kernel-crate data types (Config, DeliveryGuarantee, ProcessingResult,
BrokerEvent, CloudEvent) are declared and used by the sources but their
definitions are not part of the provided sources, so they are modelled from
the specification where noted.
-/

/-- Modelled from the spec: the recursive configuration value type
(string, boolean, integer, ordered list, string-keyed map). Its definition
lives in the cerk kernel crate, which is not among the provided sources;
the spec gives the exact tagged union. -/
inductive Config : Type
  | String (s : String)
  | Bool (b : Bool)
  | Int (i : Int)
  | Vec (l : List Config)
  | HashMap (m : List (String × Config))

/-- Modelled from the spec: the delivery-guarantee enumeration
(Unspecified, BestEffort, AtLeastOnce, AtMostOnce, ExactlyOnce); defined in
the cerk kernel crate, not among the provided sources. -/
inductive DeliveryGuarantee : Type
  | Unspecified
  | BestEffort
  | AtLeastOnce
  | AtMostOnce
  | ExactlyOnce
deriving DecidableEq

/-- Modelled from the spec: the derived predicate used throughout; the
guarantees whose delivery outcome must be acknowledged are the ones that
track delivery (at-least-once and exactly-once); fire-and-forget levels do
not require acknowledgment. -/
def DeliveryGuarantee.requires_acknowledgment : DeliveryGuarantee → Bool
  | .AtLeastOnce => true
  | .ExactlyOnce => true
  | _ => false

/-- Modelled from the spec: parsing a guarantee from a Config value, failing
with a parse error on an unrecognized token; the concrete token spellings are
not given by the spec, so the variant names in snake case are used. -/
def DeliveryGuarantee.try_from (c : Config) : Except String DeliveryGuarantee :=
  match c with
  | Config.String s =>
    if s = "unspecified" then .ok .Unspecified
    else if s = "best_effort" then .ok .BestEffort
    else if s = "at_least_once" then .ok .AtLeastOnce
    else if s = "at_most_once" then .ok .AtMostOnce
    else if s = "exactly_once" then .ok .ExactlyOnce
    else .error "unrecognized delivery_guarantee token"
  | _ => .error "delivery_guarantee has to be of type String"

/-- Modelled from the spec: the terminal outcome assigned to a processed
event; defined in the cerk kernel crate, not among the provided sources. -/
inductive ProcessingResult : Type
  | Successful
  | TransientError
  | PermanentError
deriving DecidableEq

/-- The CloudEvent record as the AMQP port sees it (cloudevents crate):
two spec versions, each exposing a stable external event id. The body is
never inspected by the core, so only the id is modelled. -/
inductive CloudEvent : Type
  | V0_2 (event_id : String)
  | V1_0 (event_id : String)
deriving DecidableEq

/-- External id accessor, matching on the spec version as get_event_id does. -/
def CloudEvent.event_id : CloudEvent → String
  | .V0_2 i => i
  | .V1_0 i => i

/-- Routing arguments attached to every event message (cerk kernel crate);
carries the requested delivery guarantee. -/
structure CloudEventRoutingArgs where
  delivery_guarantee : DeliveryGuarantee
deriving DecidableEq

/-- Modelled from the spec: the closed message-variant set exchanged over
mailboxes; defined in the cerk kernel crate, not among the provided sources.
The ConfigUpdated sender handle is dropped (it is only a channel handle). -/
inductive BrokerEvent : Type
  | Init
  | ConfigUpdated (config : Config)
  | IncomingCloudEvent (routing_id : String) (event_id : String)
      (cloud_event : CloudEvent) (args : CloudEventRoutingArgs)
  | IncomingCloudEventProcessed (event_id : String) (result : ProcessingResult)
  | OutgoingCloudEvent (event_id : String) (cloud_event : CloudEvent)
      (destination_id : String) (args : CloudEventRoutingArgs)
  | OutgoingCloudEventProcessed (sender_id : String) (event_id : String)
      (result : ProcessingResult)

/-! ### Decimal rendering of the AMQP delivery tag

The source renders the u64 delivery tag with the Display format inside
format strings; this is a plain decimal printer, modelled with explicit
fuel so that it evaluates by kernel reduction. -/

/-- The character for one decimal digit value. -/
def digitChar (d : Nat) : Char := Char.ofNat (48 + d)

/-- The digit value of a decimal character. -/
def charVal (c : Char) : Nat := c.toNat - 48

/-- Big-endian decimal digits of a natural number, with fuel; any fuel
above the number itself is enough. -/
def natToDecimalAux : Nat → Nat → List Char
  | 0, _ => []
  | fuel + 1, n =>
    if n < 10 then [digitChar n]
    else natToDecimalAux fuel (n / 10) ++ [digitChar (n % 10)]

/-- Decimal rendering of a natural number (the Display format of u64). -/
def natToDecimal (n : Nat) : String := String.mk (natToDecimalAux (n + 1) n)

/-- Value of a big-endian decimal digit list. -/
def decimalVal (l : List Char) : Nat := l.foldl (fun a c => 10 * a + charVal c) 0

/-! ### Association-list model of the Rust HashMap

The ports use std HashMap; here a key-ordered-insertion association list
with replace-on-duplicate semantics models it (lookup, and insert that
returns the previous value, as HashMap insert does). -/

/-- HashMap get. -/
def assocLookup {α : Type} : List (String × α) → String → Option α
  | [], _ => none
  | (k, v) :: rest, key => if k = key then some v else assocLookup rest key

/-- HashMap insert: replaces an existing binding and returns it, or appends
a new binding and returns none. -/
def assocInsert {α : Type} : List (String × α) → String → α → List (String × α) × Option α
  | [], key, value => ([(key, value)], none)
  | (k, v) :: rest, key, value =>
    if k = key then ((key, value) :: rest, some v)
    else
      let r := assocInsert rest key value
      ((k, v) :: r.1, r.2)

/-! ### AMQP port data structures (src/cerk_port_amqp/src/port_amqp.rs)

Transport channels are real broker handles in the source; here a channel
handle is an abstract numeric id, because the embedded functions only test
for its presence and pass it along. -/

/-- PendingDelivery from port_amqp.rs: the transport handle data needed to
acknowledge one admitted delivery later. -/
structure PendingDelivery where
  consume_channel_id : String
  delivery_tag : Nat
deriving DecidableEq

/-- PendingDeliveries from port_amqp.rs: routing id to pending delivery. -/
abbrev PendingDeliveries : Type := List (String × PendingDelivery)

/-- AmqpConsumeOptions from port_amqp.rs. -/
structure AmqpConsumeOptions where
  channel : Option Nat
  ensure_queue : Bool
  bind_to_exchange : Option String
  delivery_guarantee : DeliveryGuarantee
deriving DecidableEq

/-- AmqpPublishOptions from port_amqp.rs. -/
structure AmqpPublishOptions where
  channel : Option Nat
  ensure_exchange : Bool
  delivery_guarantee : DeliveryGuarantee
deriving DecidableEq

/-- AmqpOptions from port_amqp.rs. -/
structure AmqpOptions where
  uri : String
  consume_channels : List (String × AmqpConsumeOptions)
  publish_channels : List (String × AmqpPublishOptions)
deriving DecidableEq

/-- try_get_delivery_option from port_amqp.rs: absent key means Unspecified,
a present value must parse. -/
def try_get_delivery_option (config : List (String × Config)) :
    Except String DeliveryGuarantee :=
  match assocLookup config "delivery_guarantee" with
  | some c => DeliveryGuarantee.try_from c
  | none => .ok .Unspecified

/-- One iteration of the consume_channels loop of build_config. -/
def buildConsumeChannel (acc : List (String × AmqpConsumeOptions)) (entry : Config) :
    Except String (List (String × AmqpConsumeOptions)) :=
  match entry with
  | Config.HashMap consumer =>
    match try_get_delivery_option consumer with
    | .error e => .error e
    | .ok guarantee =>
      let consumer_options : AmqpConsumeOptions :=
        { ensure_queue :=
            match assocLookup consumer "ensure_queue" with
            | some (Config.Bool b) => b
            | _ => false
          bind_to_exchange :=
            match assocLookup consumer "bind_to_exchange" with
            | some (Config.String s) => some s
            | _ => none
          delivery_guarantee := guarantee
          channel := none }
      match assocLookup consumer "name" with
      | some (Config.String name) => .ok (assocInsert acc name consumer_options).1
      | _ => .error "consume_channels name is not set"
  | _ => .error "consume_channels entries have to be of type HashMap"

/-- The consume_channels loop of build_config. -/
def buildConsumeChannels (acc : List (String × AmqpConsumeOptions)) :
    List Config → Except String (List (String × AmqpConsumeOptions))
  | [] => .ok acc
  | entry :: rest =>
    match buildConsumeChannel acc entry with
    | .error e => .error e
    | .ok acc2 => buildConsumeChannels acc2 rest

/-- One iteration of the publish_channels loop of build_config. -/
def buildPublishChannel (acc : List (String × AmqpPublishOptions)) (entry : Config) :
    Except String (List (String × AmqpPublishOptions)) :=
  match entry with
  | Config.HashMap publisher =>
    match try_get_delivery_option publisher with
    | .error e => .error e
    | .ok guarantee =>
      let publish_options : AmqpPublishOptions :=
        { ensure_exchange :=
            match assocLookup publisher "ensure_exchange" with
            | some (Config.Bool b) => b
            | _ => false
          delivery_guarantee := guarantee
          channel := none }
      match assocLookup publisher "name" with
      | some (Config.String name) => .ok (assocInsert acc name publish_options).1
      | _ => .error "publish_channels name is not set"
  | _ => .error "publish_channels entries have to be of type HashMap"

/-- The publish_channels loop of build_config. -/
def buildPublishChannels (acc : List (String × AmqpPublishOptions)) :
    List Config → Except String (List (String × AmqpPublishOptions))
  | [] => .ok acc
  | entry :: rest =>
    match buildPublishChannel acc entry with
    | .error e => .error e
    | .ok acc2 => buildPublishChannels acc2 rest

/-- build_config from port_amqp.rs: the config must be a HashMap with a
String uri; consume_channels and publish_channels lists are processed when
present with the right type and silently skipped otherwise, exactly as the
if-let chains in the source do. -/
def build_config (config : Config) : Except String AmqpOptions :=
  match config with
  | Config.HashMap config_map =>
    match assocLookup config_map "uri" with
    | some (Config.String uri) =>
      let consume :=
        match assocLookup config_map "consume_channels" with
        | some (Config.Vec consumers) => buildConsumeChannels [] consumers
        | _ => .ok []
      match consume with
      | .error e => .error e
      | .ok consume_channels =>
        let publish :=
          match assocLookup config_map "publish_channels" with
          | some (Config.Vec publishers) => buildPublishChannels [] publishers
          | _ => .ok []
        match publish with
        | .error e => .error e
        | .ok publish_channels =>
          .ok { uri := uri, consume_channels := consume_channels,
                publish_channels := publish_channels }
    | _ => .error "No uri option"
  | _ => .error "config has to be of type HashMap"

/-! ### Observable effects of one handler step

Each embedded handler returns, besides the new port state, the ordered list
of its observable effects: messages sent to the kernel, transport commands
issued on the broker channel, and log lines. Trace-level logging that
carries no decision (the debug and info progress lines of receive_message
and setup_connection) is not modelled; every error and warn log line of the
sources is. -/

/-- Log severity. -/
inductive LogLevel : Type
  | debug
  | info
  | warn
  | error
deriving DecidableEq

/-- The transport commands the AMQP port issues to resolve a delivery
(basic_ack / basic_nack with the multiple and requeue flags). -/
inductive AmqpAction : Type
  | basic_ack (delivery_tag : Nat)
  | basic_nack (delivery_tag : Nat) (multiple : Bool) (requeue : Bool)
deriving DecidableEq

/-- One observable effect of a handler step. -/
inductive PortOutput : Type
  | toKernel (e : BrokerEvent)
  | transport (a : AmqpAction)
  | log (lvl : LogLevel) (msg : String)

/-- Whether an effect is a message sent to the kernel. -/
def PortOutput.isToKernel : PortOutput → Bool
  | .toKernel _ => true
  | _ => false

/-- Whether an effect is a transport command. -/
def PortOutput.isTransport : PortOutput → Bool
  | .transport _ => true
  | _ => false

/-- Whether an effect is a log line of the given severity. -/
def PortOutput.isLogAt (lvl : LogLevel) : PortOutput → Bool
  | .log l _ => l = lvl
  | _ => false

/-! ### AMQP port behaviour (src/cerk_port_amqp/src/port_amqp.rs) -/

/-- get_event_id from port_amqp.rs: external event id and delivery tag
joined with a double dash. -/
def get_event_id (cloud_event : CloudEvent) (delivery_tag : Nat) : String :=
  match cloud_event with
  | .V0_2 event => event ++ "--" ++ natToDecimal delivery_tag
  | .V1_0 event => event ++ "--" ++ natToDecimal delivery_tag

/-- receive_message from port_amqp.rs, after the transport listener has
read one delivery: on a deserialization error the message is dropped with an
error log (the bail result is discarded by the listener loop); on success
the pending entry is inserted unconditionally (the source has no
requires_acknowledgment test here), a collision with an existing key is
logged as an error after the old entry has already been replaced, and the
IncomingCloudEvent is sent to the kernel. -/
def receive_message (name : String) (id : String) (pending_deliveries : PendingDeliveries)
    (cloud_event_result : Except String CloudEvent) (delivery_tag : Nat)
    (delivery_guarantee : DeliveryGuarantee) : PendingDeliveries × List PortOutput :=
  match cloud_event_result with
  | .error e =>
    (pending_deliveries,
     [.log .error ("while converting string to CloudEvent: " ++ e)])
  | .ok cloud_event =>
    let event_id := get_event_id cloud_event delivery_tag
    let inserted := assocInsert pending_deliveries event_id
      { delivery_tag := delivery_tag, consume_channel_id := name }
    let collision_log : List PortOutput :=
      match inserted.2 with
      | some _ =>
        [.log .error ("failed event_id=" ++ event_id ++
          " was already in the table - this should not happen")]
      | none => []
    (inserted.1,
     collision_log ++
       [.toKernel (BrokerEvent.IncomingCloudEvent id event_id cloud_event
         { delivery_guarantee := delivery_guarantee })])

/-- The publisher-confirm answer of the broker (lapin Confirmation). -/
inductive Confirmation : Type
  | Ack
  | Nack
  | NotRequested
deriving DecidableEq

/-- Confirmation.is_ack from lapin. -/
def Confirmation.is_ack : Confirmation → Bool
  | .Ack => true
  | _ => false

/-- The loop body of send_cloud_event from port_amqp.rs, iterating over the
publish channels; the outcome of each basic_publish awaited confirmation is
an external input, given per channel name. A closed channel, a failed
publish, and a missing confirmation under an acknowledgment-requiring
channel guarantee each short-circuit with the error of the source. -/
def sendToChannels (publish_outcome : String → Except String Confirmation) :
    List (String × AmqpPublishOptions) → Except String Unit
  | [] => .ok ()
  | (name, options) :: rest =>
    match options.channel with
    | none => .error "channel to exchange is closed"
    | some _ =>
      match publish_outcome name with
      | .ok confirmation =>
        if !options.delivery_guarantee.requires_acknowledgment || confirmation.is_ack then
          sendToChannels publish_outcome rest
        else
          .error "Message was not acknowledged, but channel delivery_guarantee requires it"
      | .error _ => .error "message was not sent successful"

/-- send_cloud_event from port_amqp.rs. The serialized payload never
influences control flow, so the event itself is threaded through unused. -/
def send_cloud_event (_cloud_event : CloudEvent) (configurations : AmqpOptions)
    (publish_outcome : String → Except String Confirmation) : Except String Unit :=
  sendToChannels publish_outcome configurations.publish_channels

/-- ack_nack_pending_event from port_amqp.rs: looks the event id up in the
pending-delivery table, requires a configuration, the consume channel of the
entry, and an open channel handle, then issues the transport command
determined by the processing result. The source takes the table as mut but
never removes or modifies the entry, so the table is not part of the
result. -/
def ack_nack_pending_event (configuration_option : Option AmqpOptions)
    (pending_deliveries : PendingDeliveries) (event_id : String)
    (result : ProcessingResult) : Except String AmqpAction :=
  match assocLookup pending_deliveries event_id with
  | none => .error ("pending delivery with id=" ++ event_id ++ " not found")
  | some pending_event =>
    match configuration_option with
    | none => .error "configuration_option is not set"
    | some configuration =>
      match assocLookup configuration.consume_channels pending_event.consume_channel_id with
      | none => .error "channel not found to ack/nack pending delivery"
      | some channel_options =>
        match channel_options.channel with
        | none => .error "channel not open"
        | some _ =>
          .ok (match result with
            | .Successful => .basic_ack pending_event.delivery_tag
            | .TransientError => .basic_nack pending_event.delivery_tag false true
            | .PermanentError => .basic_nack pending_event.delivery_tag false false)

/-- The mutable state of the port_amqp_start loop. -/
structure AmqpPortState where
  connection_option : Option Nat
  configuration_option : Option AmqpOptions
  pending_deliveries : PendingDeliveries

/-- Outcome of a handler that may tear the whole port loop down: either the
thread unwinds with a panic message, or the loop continues with a value. -/
inductive RunResult (α : Type) : Type
  | panic (msg : String)
  | ret (a : α)

/-- Whether the port loop was torn down. -/
def RunResult.isPanic {α : Type} : RunResult α → Bool
  | .panic _ => true
  | _ => false

/-- Channel assignment after a successful connection setup: every publish
and consume channel option receives an open channel handle, as the two
loops of setup_connection do. -/
def openChannels (options : AmqpOptions) : AmqpOptions :=
  { options with
    consume_channels := options.consume_channels.map
      (fun p => (p.1, { p.2 with channel := some 0 }))
    publish_channels := options.publish_channels.map
      (fun p => (p.1, { p.2 with channel := some 0 })) }

/-- setup_connection from port_amqp.rs: build_config failure is turned into
a panic by the source (match on build_config with a panic in the Err arm);
otherwise the blocking connect-and-declare phase either fails with an error
that the caller handles, or yields the options with all channels open. The
whole external transport phase is summarized by the connect_outcome
input. -/
def setup_connection (config : Config) (connect_outcome : Except String Unit) :
    RunResult (Except String AmqpOptions) :=
  match build_config config with
  | .error e => .panic e
  | .ok options =>
    .ret (match connect_outcome with
      | .error e => .error e
      | .ok _ => .ok (openChannels options))

/-- The ConfigUpdated arm of the port_amqp_start loop: on setup success both
the connection and the configuration are replaced; on a setup error a warn
line is logged and both are cleared; a build_config panic unwinds the
loop. -/
def handleConfigUpdated (st : AmqpPortState) (config : Config)
    (connect_outcome : Except String Unit) :
    RunResult (AmqpPortState × List PortOutput) :=
  match setup_connection config connect_outcome with
  | .panic e => .panic e
  | .ret (.ok options) =>
    .ret ({ st with connection_option := some 0, configuration_option := some options },
      [.log .info "received ConfigUpdated"])
  | .ret (.error _) =>
    .ret ({ st with connection_option := none, configuration_option := none },
      [.log .info "received ConfigUpdated",
       .log .warn "was not able to establish a connection"])

/-- The OutgoingCloudEvent arm of the port_amqp_start loop: with a
configuration the event is sent, the processing result is Successful on Ok
and TransientError on Err, and an OutgoingCloudEventProcessed is sent to
the kernel exactly when the routing args guarantee requires acknowledgment;
without a configuration only an error line is logged. -/
def handleOutgoingCloudEvent (id : String) (st : AmqpPortState) (event_id : String)
    (cloud_event : CloudEvent) (args : CloudEventRoutingArgs)
    (publish_outcome : String → Except String Confirmation) :
    AmqpPortState × List PortOutput :=
  match st.configuration_option with
  | some configuration =>
    let send_result := send_cloud_event cloud_event configuration publish_outcome
    let result : ProcessingResult :=
      match send_result with
      | .ok _ => .Successful
      | .error _ => .TransientError
    let logs : List PortOutput :=
      match send_result with
      | .ok _ => [.log .info "sent cloud event to queue"]
      | .error e => [.log .error ("was not able to send CloudEvent " ++ e)]
    (st, logs ++
      (if args.delivery_guarantee.requires_acknowledgment then
        [.toKernel (BrokerEvent.OutgoingCloudEventProcessed id event_id result)]
      else []))
  | none =>
    (st, [.log .error
      "received CloudEvent before connection was  set up - message will not be delivered"])

/-- The IncomingCloudEventProcessed arm of the port_amqp_start loop: the
ack/nack outcome is logged; the pending table is never changed by this arm
(the source holds the lock but ack_nack_pending_event does not remove the
entry). -/
def handleIncomingCloudEventProcessed (st : AmqpPortState) (event_id : String)
    (result : ProcessingResult) : AmqpPortState × List PortOutput :=
  match ack_nack_pending_event st.configuration_option st.pending_deliveries
      event_id result with
  | .ok action =>
    (st, [.transport action, .log .debug "IncomingCloudEventProcessed was ack/nack successful"])
  | .error e =>
    (st, [.log .warn ("IncomingCloudEventProcessed was not ack/nack " ++ e)])

/-! ### Unix-socket input port
(src/cerk_port_unix_socket/src/port_input_unix_socket_json.rs) -/

/-- The ConfigUpdated arm of the port_input_unix_socket_json_start loop: a
String config binds the listener with unwrap, so a bind failure unwinds the
port loop with a panic; any other config shape is logged as an error and
leaves the previous listener in place. The listener handle is abstract. -/
def handleUnixConfigUpdated (listener : Option Nat) (config : Config)
    (bind_outcome : Except String Nat) :
    RunResult (Option Nat × List PortOutput) :=
  match config with
  | Config.String _ =>
    (match bind_outcome with
     | .ok l => .ret (some l, [.log .info "received ConfigUpdated"])
     | .error _ => .panic "called unwrap on an Err value while binding the unix socket")
  | _ =>
    .ret (listener,
      [.log .info "received ConfigUpdated", .log .error "received invalid config"])

/-! ### Broadcast router (src/cerk_router_broadcast/src/lib.rs) -/

/-- Modelled from the spec: the provided router source contains only the
start_routing entry stub (it logs the start line and nothing more); the
routing reaction itself is missing from the sources, so it follows the
router contract of the spec: for one consumed IncomingCloudEvent the
broadcast policy emits one OutgoingCloudEvent per configured output id,
propagating the original routing args unchanged. -/
def broadcast_outgoing (outputs : List String) (event_id : String)
    (cloud_event : CloudEvent) (args : CloudEventRoutingArgs) : List BrokerEvent :=
  outputs.map (fun destination =>
    BrokerEvent.OutgoingCloudEvent event_id cloud_event destination args)

/-- Whether a broker event is an OutgoingCloudEvent addressed to the given
destination. -/
def BrokerEvent.isOutgoingTo (destination : String) : BrokerEvent → Bool
  | .OutgoingCloudEvent _ _ d _ => d == destination
  | _ => false

/-! ### Concrete scenario inputs used to evaluate the embedded code -/

/-- An applied AMQP configuration with one consume channel named q whose
guarantee requires acknowledgment and whose channel is open. -/
def sampleConsumeOptions : AmqpOptions :=
  { uri := "amqp://localhost"
    consume_channels :=
      [("q", { channel := some 0, ensure_queue := false, bind_to_exchange := none,
               delivery_guarantee := .AtLeastOnce })]
    publish_channels := [] }

/-- An applied AMQP configuration with one publish channel named ex whose
guarantee requires acknowledgment and whose channel is open. -/
def samplePublishOptions : AmqpOptions :=
  { uri := "amqp://localhost"
    consume_channels := []
    publish_channels :=
      [("ex", { channel := some 0, ensure_exchange := false,
                delivery_guarantee := .AtLeastOnce })] }

/-- A port state with the publish configuration applied and nothing
pending. -/
def samplePublishState : AmqpPortState :=
  { connection_option := some 0, configuration_option := some samplePublishOptions,
    pending_deliveries := [] }

/-- A broker answering every publish with a positive confirmation. -/
def allAck : String → Except String Confirmation := fun _ => .ok .Ack

/-- Admission of a first delivery (external id a, delivery tag 1) into an
empty pending table. -/
def c1_admit1 : PendingDeliveries × List PortOutput :=
  receive_message "q" "amqp-in" [] (.ok (CloudEvent.V1_0 "a")) 1 .AtLeastOnce

/-- Admission of a second delivery (external id b, delivery tag 2). -/
def c1_admit2 : PendingDeliveries × List PortOutput :=
  receive_message "q" "amqp-in" c1_admit1.1 (.ok (CloudEvent.V1_0 "b")) 2 .AtLeastOnce

/-- The port state after both admissions, with the configuration applied. -/
def c1_state : AmqpPortState :=
  { connection_option := some 0, configuration_option := some sampleConsumeOptions,
    pending_deliveries := c1_admit2.1 }

/-- Resolution of the first admitted delivery with a Successful outcome. -/
def c1_resolve1 : AmqpPortState × List PortOutput :=
  handleIncomingCloudEventProcessed c1_state "a--1" .Successful

/-- Resolution of the second admitted delivery with a Successful outcome. -/
def c1_resolve2 : AmqpPortState × List PortOutput :=
  handleIncomingCloudEventProcessed c1_resolve1.1 "b--2" .Successful

/-- Admission of a delivery of external id abc with delivery tag 1 on
consume channel q1 into an empty pending table. -/
def c9_admit_q1 : PendingDeliveries × List PortOutput :=
  receive_message "q1" "amqp-in" [] (.ok (CloudEvent.V1_0 "abc")) 1 .AtLeastOnce

/-- Admission of a second, distinct delivery on consume channel q2, also
with delivery tag 1 (AMQP delivery tags are scoped per channel, so both
channels count from 1), carrying the same external id abc. -/
def c9_admit_q2 : PendingDeliveries × List PortOutput :=
  receive_message "q2" "amqp-in" c9_admit_q1.1 (.ok (CloudEvent.V1_0 "abc")) 1 .AtLeastOnce

/-! ### Library lemmas about the embedding helpers -/

theorem charVal_digitChar (d : Nat) (h : d < 10) : charVal (digitChar d) = d := by
  interval_cases d <;> rfl

theorem decimalVal_append (l : List Char) (c : Char) :
    decimalVal (l ++ [c]) = 10 * decimalVal l + charVal c := by
  simp [decimalVal, List.foldl_append]

theorem decimalVal_natToDecimalAux (fuel n : Nat) (h : n < fuel) :
    decimalVal (natToDecimalAux fuel n) = n := by
  induction fuel generalizing n with
  | zero => omega
  | succ f ih =>
    simp only [natToDecimalAux]
    by_cases h10 : n < 10
    · simp only [h10, if_true]
      simp [decimalVal, charVal_digitChar n h10]
    · simp only [h10, if_false]
      have hdiv : n / 10 < n := Nat.div_lt_self (by omega) (by omega)
      rw [decimalVal_append, ih (n / 10) (by omega),
        charVal_digitChar (n % 10) (Nat.mod_lt n (by omega))]
      omega

theorem natToDecimal_injective (m n : Nat) (h : natToDecimal m = natToDecimal n) :
    m = n := by
  have hd : natToDecimalAux (m + 1) m = natToDecimalAux (n + 1) n := by
    have := congrArg String.data h
    simpa [natToDecimal] using this
  have hm := decimalVal_natToDecimalAux (m + 1) m (by omega)
  have hn := decimalVal_natToDecimalAux (n + 1) n (by omega)
  rw [← hm, ← hn, hd]

theorem sample_natToDecimal : natToDecimal 42 = "42" := by decide

theorem assocInsert_snd {α : Type} (t : List (String × α)) (key : String) (value : α) :
    (assocInsert t key value).2 = assocLookup t key := by
  induction t with
  | nil => rfl
  | cons p rest ih =>
    simp only [assocInsert, assocLookup]
    by_cases h : p.1 = key <;> simp [h, ih]

theorem assocInsert_length_of_not_mem {α : Type} (t : List (String × α)) (key : String)
    (value : α) (h : assocLookup t key = none) :
    (assocInsert t key value).1.length = t.length + 1 := by
  induction t with
  | nil => rfl
  | cons p rest ih =>
    simp only [assocLookup] at h
    by_cases hp : p.1 = key
    · simp [hp] at h
    · simp only [assocInsert, hp, if_false]
      simp only [hp, if_false] at h
      simp [ih h]

theorem string_append_right_inj (s a b : String) (h : s ++ a = s ++ b) : a = b := by
  have hd := congrArg String.data h
  rw [String.data_append, String.data_append] at hd
  have hc := List.append_cancel_left hd
  cases a
  cases b
  exact congrArg String.mk hc

/-! ### Claim theorems -/

/-- C1: the claim states that resolving each of n admitted deliveries once
empties the pending-delivery table. The code violates it:
ack_nack_pending_event reads the entry and issues the transport command but
never removes the entry, so after two distinct admissions and two
successful resolutions (both of which did issue the basic_ack command) the
table still holds two entries instead of zero. -/
theorem C1_resolution_never_removes_entries :
    c1_admit2.1.length = 2 ∧
    c1_resolve1.2 =
      [.transport (.basic_ack 1),
       .log .debug "IncomingCloudEventProcessed was ack/nack successful"] ∧
    c1_resolve2.2 =
      [.transport (.basic_ack 2),
       .log .debug "IncomingCloudEventProcessed was ack/nack successful"] ∧
    c1_resolve2.1.pending_deliveries.length = 2 :=
  ⟨rfl, rfl, rfl, rfl⟩

/-- C2: the claim states that a guarantee with requires_acknowledgment false
creates no pending entry on admission. The code violates it: receive_message
inserts the pending entry unconditionally, with no guarantee test, so a
BestEffort delivery lands in the table too. -/
theorem C2_entry_created_without_acknowledgment_requirement :
    DeliveryGuarantee.requires_acknowledgment .BestEffort = false ∧
    (receive_message "q" "amqp-in" [] (.ok (CloudEvent.V1_0 "abc")) 1 .BestEffort).1.length
      = 1 :=
  ⟨rfl, rfl⟩

/-- C5: the claim states that a ConfigUpdated whose config fails to parse is
logged and leaves the port running. The AMQP port violates it:
setup_connection matches on build_config and turns the parse error into a
panic, which unwinds the whole port loop; here a non-map config makes
handleConfigUpdated panic with the build_config error. -/
theorem C5_amqp_parse_failure_panics :
    handleConfigUpdated
        { connection_option := none, configuration_option := none, pending_deliveries := [] }
        (Config.String "a plain string, not a map") (.ok ())
      = RunResult.panic "config has to be of type HashMap" :=
  rfl

/-- C6 counterexample: the claim, stated over every port, fails on the
unix-socket input port: when the socket path cannot be bound during
ConfigUpdated handling, the unwrap on the bind result unwinds the port loop
with a panic, so the port neither logs the error nor keeps running. -/
theorem C6_counterexample_unix_bind_panics :
    (handleUnixConfigUpdated none (Config.String "/tmp/sock")
      (.error "address already in use")).isPanic = true :=
  rfl

/-- C6 (amended): for the AMQP port a transport connect or setup error
during ConfigUpdated handling is logged as a warn line, the port keeps
running uninitialized (connection and configuration cleared, pending table
untouched, no panic) and nothing is sent to the kernel; the unix-socket
port instead panics when binding the socket fails. -/
theorem C6_amqp_connect_error_keeps_running (st : AmqpPortState) (config : Config)
    (options : AmqpOptions) (e : String) (h : build_config config = .ok options) :
    handleConfigUpdated st config (.error e) =
      .ret ({ st with connection_option := none, configuration_option := none },
        [.log .info "received ConfigUpdated",
         .log .warn "was not able to establish a connection"]) ∧
    (handleConfigUpdated st config (.error e)).isPanic = false ∧
    (∀ st2 outs, handleConfigUpdated st config (.error e) = .ret (st2, outs) →
      st2.pending_deliveries = st.pending_deliveries ∧
      ∀ o ∈ outs, o.isToKernel = false) := by
  have hmain : handleConfigUpdated st config (.error e) =
      .ret ({ st with connection_option := none, configuration_option := none },
        [.log .info "received ConfigUpdated",
         .log .warn "was not able to establish a connection"]) := by
    simp [handleConfigUpdated, setup_connection, h]
  refine ⟨hmain, by rw [hmain]; rfl, ?_⟩
  intro st2 outs heq
  rw [hmain] at heq
  injection heq with heq2
  injection heq2 with hst houts
  subst hst
  subst houts
  refine ⟨rfl, ?_⟩
  simp [List.forall_mem_cons, PortOutput.isToKernel]

/-- C6 witness: the amended statement evaluated at a config that parses
(only a uri is required) and a refused connection. -/
theorem C6_amqp_connect_error_witness :
    handleConfigUpdated
        { connection_option := none, configuration_option := none, pending_deliveries := [] }
        (Config.HashMap [("uri", Config.String "amqp://localhost")]) (.error "refused") =
      .ret ({ connection_option := none, configuration_option := none,
              pending_deliveries := [] },
        [.log .info "received ConfigUpdated",
         .log .warn "was not able to establish a connection"]) ∧
    (handleConfigUpdated
        { connection_option := none, configuration_option := none, pending_deliveries := [] }
        (Config.HashMap [("uri", Config.String "amqp://localhost")])
        (.error "refused")).isPanic = false ∧
    (∀ st2 outs, handleConfigUpdated
        { connection_option := none, configuration_option := none, pending_deliveries := [] }
        (Config.HashMap [("uri", Config.String "amqp://localhost")])
        (.error "refused") = .ret (st2, outs) →
      st2.pending_deliveries = [] ∧ ∀ o ∈ outs, o.isToKernel = false) :=
  C6_amqp_connect_error_keeps_running
    { connection_option := none, configuration_option := none, pending_deliveries := [] }
    (Config.HashMap [("uri", Config.String "amqp://localhost")])
    { uri := "amqp://localhost", consume_channels := [], publish_channels := [] }
    "refused" rfl

/-- C4: when an input port resolves a pending delivery (the entry exists,
the configuration is set, the consume channel of the entry is known and
open), the transport command is determined exactly by the processing
result: Successful issues basic_ack, TransientError issues basic_nack with
requeue and never a basic_ack, PermanentError issues basic_nack without
requeue. -/
theorem C4_result_determines_transport_action (configuration : AmqpOptions)
    (pending : PendingDeliveries) (event_id : String) (pending_event : PendingDelivery)
    (channel_options : AmqpConsumeOptions) (ch : Nat)
    (h1 : assocLookup pending event_id = some pending_event)
    (h2 : assocLookup configuration.consume_channels pending_event.consume_channel_id
      = some channel_options)
    (h3 : channel_options.channel = some ch) :
    ack_nack_pending_event (some configuration) pending event_id .Successful
      = .ok (.basic_ack pending_event.delivery_tag) ∧
    ack_nack_pending_event (some configuration) pending event_id .TransientError
      = .ok (.basic_nack pending_event.delivery_tag false true) ∧
    (∀ t, ack_nack_pending_event (some configuration) pending event_id .TransientError
      ≠ .ok (.basic_ack t)) ∧
    ack_nack_pending_event (some configuration) pending event_id .PermanentError
      = .ok (.basic_nack pending_event.delivery_tag false false) := by
  refine ⟨?_, ?_, ?_, ?_⟩ <;>
    simp [ack_nack_pending_event, h1, h2, h3]

/-- C4 witness: the concrete scenario of the spec (external id abc, delivery
tag 42, channel q open under an acknowledgment-requiring guarantee). -/
theorem C4_result_determines_transport_action_witness :
    ack_nack_pending_event (some sampleConsumeOptions)
        [("abc--42", { consume_channel_id := "q", delivery_tag := 42 })] "abc--42"
        .Successful = .ok (.basic_ack 42) ∧
    ack_nack_pending_event (some sampleConsumeOptions)
        [("abc--42", { consume_channel_id := "q", delivery_tag := 42 })] "abc--42"
        .TransientError = .ok (.basic_nack 42 false true) ∧
    (∀ t, ack_nack_pending_event (some sampleConsumeOptions)
        [("abc--42", { consume_channel_id := "q", delivery_tag := 42 })] "abc--42"
        .TransientError ≠ .ok (.basic_ack t)) ∧
    ack_nack_pending_event (some sampleConsumeOptions)
        [("abc--42", { consume_channel_id := "q", delivery_tag := 42 })] "abc--42"
        .PermanentError = .ok (.basic_nack 42 false false) :=
  C4_result_determines_transport_action sampleConsumeOptions
    [("abc--42", { consume_channel_id := "q", delivery_tag := 42 })] "abc--42"
    { consume_channel_id := "q", delivery_tag := 42 }
    { channel := some 0, ensure_queue := false, bind_to_exchange := none,
      delivery_guarantee := .AtLeastOnce } 0 rfl rfl rfl

/-- C8: a Processed outcome whose event id has no pending entry produces
exactly one warn log line: the state is unchanged, no transport command is
issued and nothing is sent to the kernel, and the loop goes on. -/
theorem C8_unknown_pending_is_nonfatal (st : AmqpPortState) (event_id : String)
    (result : ProcessingResult)
    (h : assocLookup st.pending_deliveries event_id = none) :
    handleIncomingCloudEventProcessed st event_id result =
      (st, [.log .warn ("IncomingCloudEventProcessed was not ack/nack " ++
        ("pending delivery with id=" ++ event_id ++ " not found"))]) ∧
    ∀ o ∈ (handleIncomingCloudEventProcessed st event_id result).2,
      o.isToKernel = false ∧ o.isTransport = false ∧ o.isLogAt .warn = true := by
  have hack : ack_nack_pending_event st.configuration_option st.pending_deliveries
      event_id result =
      .error ("pending delivery with id=" ++ event_id ++ " not found") := by
    simp [ack_nack_pending_event, h]
  have hmain : handleIncomingCloudEventProcessed st event_id result =
      (st, [.log .warn ("IncomingCloudEventProcessed was not ack/nack " ++
        ("pending delivery with id=" ++ event_id ++ " not found"))]) := by
    simp [handleIncomingCloudEventProcessed, hack]
  refine ⟨hmain, ?_⟩
  rw [hmain]
  simp [List.forall_mem_cons, PortOutput.isToKernel, PortOutput.isTransport,
    PortOutput.isLogAt]

/-- C8 witness: an unconfigured port with an empty table receiving a
Processed outcome for an unknown id. -/
theorem C8_unknown_pending_is_nonfatal_witness :
    handleIncomingCloudEventProcessed
        { connection_option := none, configuration_option := none, pending_deliveries := [] }
        "missing" .Successful =
      ({ connection_option := none, configuration_option := none, pending_deliveries := [] },
       [.log .warn ("IncomingCloudEventProcessed was not ack/nack " ++
         ("pending delivery with id=" ++ "missing" ++ " not found"))]) ∧
    ∀ o ∈ (handleIncomingCloudEventProcessed
        { connection_option := none, configuration_option := none, pending_deliveries := [] }
        "missing" .Successful).2,
      o.isToKernel = false ∧ o.isTransport = false ∧ o.isLogAt .warn = true :=
  C8_unknown_pending_is_nonfatal
    { connection_option := none, configuration_option := none, pending_deliveries := [] }
    "missing" .Successful rfl

/-- C10: an OutgoingCloudEvent received while no configuration is applied is
dropped with a single error log line; nothing is sent to the kernel and the
state is unchanged, whatever the delivery guarantee of the event asks. -/
theorem C10_unconfigured_drop_without_report (id : String) (st : AmqpPortState)
    (event_id : String) (cloud_event : CloudEvent) (args : CloudEventRoutingArgs)
    (publish_outcome : String → Except String Confirmation)
    (h : st.configuration_option = none) :
    handleOutgoingCloudEvent id st event_id cloud_event args publish_outcome =
      (st, [.log .error
        "received CloudEvent before connection was  set up - message will not be delivered"]) ∧
    ∀ o ∈ (handleOutgoingCloudEvent id st event_id cloud_event args publish_outcome).2,
      o.isToKernel = false := by
  have hmain : handleOutgoingCloudEvent id st event_id cloud_event args publish_outcome =
      (st, [.log .error
        "received CloudEvent before connection was  set up - message will not be delivered"]) := by
    simp [handleOutgoingCloudEvent, h]
  refine ⟨hmain, ?_⟩
  rw [hmain]
  simp [List.forall_mem_cons, PortOutput.isToKernel]

/-- C10 witness: the unconfigured port receives an event whose guarantee
requires acknowledgment; still only the error log is produced. -/
theorem C10_unconfigured_drop_without_report_witness :
    DeliveryGuarantee.requires_acknowledgment .AtLeastOnce = true ∧
    (handleOutgoingCloudEvent "amqp-out"
        { connection_option := none, configuration_option := none, pending_deliveries := [] }
        "evt-1" (CloudEvent.V1_0 "evt") { delivery_guarantee := .AtLeastOnce }
        (fun _ => .ok .Ack) =
      ({ connection_option := none, configuration_option := none, pending_deliveries := [] },
       [.log .error
         "received CloudEvent before connection was  set up - message will not be delivered"]) ∧
    ∀ o ∈ (handleOutgoingCloudEvent "amqp-out"
        { connection_option := none, configuration_option := none, pending_deliveries := [] }
        "evt-1" (CloudEvent.V1_0 "evt") { delivery_guarantee := .AtLeastOnce }
        (fun _ => .ok .Ack)).2,
      o.isToKernel = false) :=
  ⟨rfl, C10_unconfigured_drop_without_report "amqp-out"
    { connection_option := none, configuration_option := none, pending_deliveries := [] }
    "evt-1" (CloudEvent.V1_0 "evt") { delivery_guarantee := .AtLeastOnce }
    (fun _ => .ok .Ack) rfl⟩

/-- C3: the broadcast routing reaction emits exactly one OutgoingCloudEvent
per configured output (for pairwise-distinct outputs), and every emitted
message is one of the configured outputs with the original routing args
attached unchanged. -/
theorem C3_broadcast_fanout (outputs : List String) (event_id : String)
    (cloud_event : CloudEvent) (args : CloudEventRoutingArgs) (h : outputs.Nodup) :
    (broadcast_outgoing outputs event_id cloud_event args).length = outputs.length ∧
    (∀ destination ∈ outputs,
      (broadcast_outgoing outputs event_id cloud_event args).countP
        (BrokerEvent.isOutgoingTo destination) = 1) ∧
    (∀ m ∈ broadcast_outgoing outputs event_id cloud_event args,
      ∃ destination ∈ outputs,
        m = BrokerEvent.OutgoingCloudEvent event_id cloud_event destination args) := by
  refine ⟨by simp [broadcast_outgoing], ?_, ?_⟩
  · intro destination hdest
    rw [broadcast_outgoing, List.countP_map]
    have hcount := List.count_eq_one_of_mem h hdest
    simpa [Function.comp, BrokerEvent.isOutgoingTo, List.count] using hcount
  · intro m hm
    rw [broadcast_outgoing] at hm
    obtain ⟨destination, hdest, rfl⟩ := List.mem_map.mp hm
    exact ⟨destination, hdest, rfl⟩

/-- C3 witness: outputs A, B, C give three messages, one per output, args
preserved. -/
theorem C3_broadcast_fanout_witness :
    (broadcast_outgoing ["A", "B", "C"] "evt-1" (CloudEvent.V1_0 "evt")
      { delivery_guarantee := .AtLeastOnce }).length = (["A", "B", "C"] : List String).length ∧
    (∀ destination ∈ (["A", "B", "C"] : List String),
      (broadcast_outgoing ["A", "B", "C"] "evt-1" (CloudEvent.V1_0 "evt")
        { delivery_guarantee := .AtLeastOnce }).countP
          (BrokerEvent.isOutgoingTo destination) = 1) ∧
    (∀ m ∈ broadcast_outgoing ["A", "B", "C"] "evt-1" (CloudEvent.V1_0 "evt")
        { delivery_guarantee := .AtLeastOnce },
      ∃ destination ∈ (["A", "B", "C"] : List String),
        m = BrokerEvent.OutgoingCloudEvent "evt-1" (CloudEvent.V1_0 "evt") destination
          { delivery_guarantee := .AtLeastOnce }) :=
  C3_broadcast_fanout ["A", "B", "C"] "evt-1" (CloudEvent.V1_0 "evt")
    { delivery_guarantee := .AtLeastOnce } (by decide)

/-- C9 counterexample: the claim states that two distinct deliveries
sharing an external id never collide in the pending-delivery table, but
delivery tags are scoped per consume channel while the table is port-wide:
a delivery on channel q1 with tag 1 and a distinct delivery on channel q2
also with tag 1, both of external id abc, derive the same key abc--1; the
second admission finds the key present, logs the collision error and
replaces the first entry, so two distinct deliveries collided and only one
entry remains. -/
theorem C9_counterexample_cross_channel_collision :
    get_event_id (CloudEvent.V1_0 "abc") 1 = "abc--1" ∧
    ({ consume_channel_id := "q1", delivery_tag := 1 } : PendingDelivery)
      ≠ { consume_channel_id := "q2", delivery_tag := 1 } ∧
    c9_admit_q1.1 = [("abc--1", { consume_channel_id := "q1", delivery_tag := 1 })] ∧
    c9_admit_q2.1 = [("abc--1", { consume_channel_id := "q2", delivery_tag := 1 })] ∧
    c9_admit_q2.2 =
      [.log .error ("failed event_id=" ++ "abc--1" ++
         " was already in the table - this should not happen"),
       .toKernel (BrokerEvent.IncomingCloudEvent "amqp-in" "abc--1"
         (CloudEvent.V1_0 "abc") { delivery_guarantee := .AtLeastOnce })] :=
  ⟨rfl, by decide, rfl, rfl, rfl⟩

/-- C9 (amended): inserting over an existing key is detected and logged as
an error (the returned old binding witnesses the collision, exactly the
is_some test of the source), the replacement being loud rather than silent;
the derived identifier is the external id and the delivery tag joined by a
double dash; two deliveries of the same external id with distinct delivery
tags, as any two distinct deliveries of one consume channel have, derive
distinct identifiers, hence distinct table keys - deliveries of different
consume channels may share a tag and then collide, as the counterexample
shows. -/
theorem C9_collision_logged_and_distinct_keys (name id : String)
    (pending : PendingDeliveries) (cloud_event : CloudEvent)
    (delivery_tag tag2 : Nat) (g : DeliveryGuarantee) (old : PendingDelivery)
    (h1 : assocLookup pending (get_event_id cloud_event delivery_tag) = some old)
    (h2 : delivery_tag ≠ tag2) :
    PortOutput.log .error ("failed event_id=" ++ get_event_id cloud_event delivery_tag ++
        " was already in the table - this should not happen")
      ∈ (receive_message name id pending (.ok cloud_event) delivery_tag g).2 ∧
    get_event_id cloud_event delivery_tag
      = cloud_event.event_id ++ "--" ++ natToDecimal delivery_tag ∧
    get_event_id cloud_event delivery_tag ≠ get_event_id cloud_event tag2 := by
  refine ⟨?_, ?_, ?_⟩
  · simp only [receive_message, assocInsert_snd, h1]
    exact List.mem_cons_self _ _
  · cases cloud_event <;> rfl
  · intro heq
    apply h2
    apply natToDecimal_injective
    cases cloud_event with
    | V0_2 event => exact string_append_right_inj (event ++ "--") _ _ heq
    | V1_0 event => exact string_append_right_inj (event ++ "--") _ _ heq

/-- C9 witness: a second delivery of external id abc arriving with tag 1
while the key abc--1 is already pending is logged, and tag 2 would derive
the distinct key abc--2. -/
theorem C9_collision_logged_and_distinct_keys_witness :
    PortOutput.log .error ("failed event_id=" ++
        get_event_id (CloudEvent.V1_0 "abc") 1 ++
        " was already in the table - this should not happen")
      ∈ (receive_message "q" "amqp-in"
          [("abc--1", { consume_channel_id := "q", delivery_tag := 1 })]
          (.ok (CloudEvent.V1_0 "abc")) 1 .AtLeastOnce).2 ∧
    get_event_id (CloudEvent.V1_0 "abc") 1
      = (CloudEvent.V1_0 "abc").event_id ++ "--" ++ natToDecimal 1 ∧
    get_event_id (CloudEvent.V1_0 "abc") 1 ≠ get_event_id (CloudEvent.V1_0 "abc") 2 :=
  C9_collision_logged_and_distinct_keys "q" "amqp-in"
    [("abc--1", { consume_channel_id := "q", delivery_tag := 1 })]
    (CloudEvent.V1_0 "abc") 1 2 .AtLeastOnce
    { consume_channel_id := "q", delivery_tag := 1 } (by decide) (by decide)


theorem sendToChannels_ok (publish_outcome : String → Except String Confirmation)
    (channels : List (String × AmqpPublishOptions))
    (h : sendToChannels publish_outcome channels = .ok ()) :
    ∀ p ∈ channels, (∃ ch, p.2.channel = some ch) ∧
      ∃ confirmation, publish_outcome p.1 = .ok confirmation ∧
        (p.2.delivery_guarantee.requires_acknowledgment = true →
          confirmation.is_ack = true) := by
  induction channels with
  | nil => intro p hp; cases hp
  | cons q rest ih =>
    obtain ⟨name, options⟩ := q
    intro p hp
    cases hch : options.channel with
    | none => simp [sendToChannels, hch] at h
    | some c =>
      cases hpo : publish_outcome name with
      | error e => simp [sendToChannels, hch, hpo] at h
      | ok confirmation =>
        simp only [sendToChannels, hch, hpo] at h
        by_cases hreq :
            (!options.delivery_guarantee.requires_acknowledgment
              || confirmation.is_ack) = true
        · rw [if_pos hreq] at h
          rcases List.mem_cons.mp hp with rfl | hp2
          · refine ⟨⟨c, hch⟩, confirmation, hpo, ?_⟩
            intro hra
            simpa [hra] using hreq
          · exact ih h p hp2
        · rw [if_neg hreq] at h
          cases h

/-- C7: with an applied configuration, handling an OutgoingCloudEvent
reports an OutgoingCloudEventProcessed to the kernel exactly when the
routing args guarantee requires acknowledgment; any reported result is
Successful when the transport send succeeded and TransientError otherwise;
and a Successful send means every publish channel was open, its publish
accepted, and its confirmation positive wherever the channel guarantee
requires acknowledgment. -/
theorem C7_outgoing_report_iff_acknowledgment (id : String) (st : AmqpPortState)
    (event_id : String) (cloud_event : CloudEvent) (args : CloudEventRoutingArgs)
    (configuration : AmqpOptions)
    (publish_outcome : String → Except String Confirmation)
    (h : st.configuration_option = some configuration) :
    ((∃ r, PortOutput.toKernel (BrokerEvent.OutgoingCloudEventProcessed id event_id r)
        ∈ (handleOutgoingCloudEvent id st event_id cloud_event args publish_outcome).2)
      ↔ args.delivery_guarantee.requires_acknowledgment = true) ∧
    (∀ r, PortOutput.toKernel (BrokerEvent.OutgoingCloudEventProcessed id event_id r)
        ∈ (handleOutgoingCloudEvent id st event_id cloud_event args publish_outcome).2 →
      (send_cloud_event cloud_event configuration publish_outcome = .ok ()
          ∧ r = .Successful) ∨
      (send_cloud_event cloud_event configuration publish_outcome ≠ .ok ()
          ∧ r = .TransientError)) ∧
    (send_cloud_event cloud_event configuration publish_outcome = .ok () →
      ∀ p ∈ configuration.publish_channels, (∃ ch, p.2.channel = some ch) ∧
        ∃ confirmation, publish_outcome p.1 = .ok confirmation ∧
          (p.2.delivery_guarantee.requires_acknowledgment = true →
            confirmation.is_ack = true)) := by
  refine ⟨?_, ?_, ?_⟩
  · cases hsend : send_cloud_event cloud_event configuration publish_outcome with
    | error e =>
      cases hack : args.delivery_guarantee.requires_acknowledgment with
      | false =>
        simp [handleOutgoingCloudEvent, h, hsend, hack]
      | true =>
        simp only [handleOutgoingCloudEvent, h, hsend, hack, if_true]
        constructor
        · intro _; trivial
        · intro _
          exact ⟨.TransientError, by simp⟩
    | ok u =>
      cases hack : args.delivery_guarantee.requires_acknowledgment with
      | false =>
        simp [handleOutgoingCloudEvent, h, hsend, hack]
      | true =>
        simp only [handleOutgoingCloudEvent, h, hsend, hack, if_true]
        constructor
        · intro _; trivial
        · intro _
          exact ⟨.Successful, by simp⟩
  · intro r hr
    cases hsend : send_cloud_event cloud_event configuration publish_outcome with
    | error e =>
      right
      refine ⟨by simp [hsend], ?_⟩
      simp only [handleOutgoingCloudEvent, h, hsend] at hr
      rcases List.mem_append.mp hr with hr2 | hr2
      · simp at hr2
      · cases hack : args.delivery_guarantee.requires_acknowledgment with
        | false => rw [hack] at hr2; simp at hr2
        | true =>
          rw [hack] at hr2
          simp only [if_true, List.mem_singleton, PortOutput.toKernel.injEq,
            BrokerEvent.OutgoingCloudEventProcessed.injEq] at hr2
          exact hr2.2.2
    | ok u =>
      left
      refine ⟨rfl, ?_⟩
      simp only [handleOutgoingCloudEvent, h, hsend] at hr
      rcases List.mem_append.mp hr with hr2 | hr2
      · simp at hr2
      · cases hack : args.delivery_guarantee.requires_acknowledgment with
        | false => rw [hack] at hr2; simp at hr2
        | true =>
          rw [hack] at hr2
          simp only [if_true, List.mem_singleton, PortOutput.toKernel.injEq,
            BrokerEvent.OutgoingCloudEventProcessed.injEq] at hr2
          exact hr2.2.2
  · intro hok
    exact sendToChannels_ok publish_outcome configuration.publish_channels hok

/-- C7 witness: the configured port with one confirming publish channel and
an acknowledgment-requiring event. -/
theorem C7_outgoing_report_iff_acknowledgment_witness :
    ((∃ r, PortOutput.toKernel (BrokerEvent.OutgoingCloudEventProcessed "amqp-out" "evt-1" r)
        ∈ (handleOutgoingCloudEvent "amqp-out" samplePublishState "evt-1"
            (CloudEvent.V1_0 "evt") { delivery_guarantee := .AtLeastOnce } allAck).2)
      ↔ DeliveryGuarantee.requires_acknowledgment .AtLeastOnce = true) ∧
    (∀ r, PortOutput.toKernel (BrokerEvent.OutgoingCloudEventProcessed "amqp-out" "evt-1" r)
        ∈ (handleOutgoingCloudEvent "amqp-out" samplePublishState "evt-1"
            (CloudEvent.V1_0 "evt") { delivery_guarantee := .AtLeastOnce } allAck).2 →
      (send_cloud_event (CloudEvent.V1_0 "evt") samplePublishOptions allAck = .ok ()
          ∧ r = .Successful) ∨
      (send_cloud_event (CloudEvent.V1_0 "evt") samplePublishOptions allAck ≠ .ok ()
          ∧ r = .TransientError)) ∧
    (send_cloud_event (CloudEvent.V1_0 "evt") samplePublishOptions allAck = .ok () →
      ∀ p ∈ samplePublishOptions.publish_channels, (∃ ch, p.2.channel = some ch) ∧
        ∃ confirmation, allAck p.1 = .ok confirmation ∧
          (p.2.delivery_guarantee.requires_acknowledgment = true →
            confirmation.is_ack = true)) :=
  C7_outgoing_report_iff_acknowledgment "amqp-out" samplePublishState "evt-1"
    (CloudEvent.V1_0 "evt") { delivery_guarantee := .AtLeastOnce }
    samplePublishOptions allAck rfl
